import Mathlib

/-!
Verification development for the 20detik video-syndication pipeline
(`src/main.py`, with the `src/20detik.py` variant noted where they diverge).

The Python code is shallowly embedded: each relevant function becomes an
executable Lean definition over explicit data; network, filesystem and
subprocess effects are abstracted into environment records whose fields hold
the outcomes the external world would have produced, and the definitions
reproduce the control flow of the source on those outcomes.
-/

/-! ## Publish results (dicts built by `FacebookUploader.upload_to_all_pages`, main.py 204-255) -/

/-- One entry of the `results` list built by `upload_to_all_pages`.
Optional fields model dict keys that are present only on some branches. -/
structure UploadResult where
  page_name : String
  status : String
  post_id : Option String
  url : Option String
  error : Option String
deriving DecidableEq, Repr

/-! ## Fingerprint ledger (`VideoManager`, main.py 56-101) -/

/-- One row of `posted_videos.json` as consumed by `VideoManager`.
`source_url` is present in every record the program writes; `hash` is an
`Option` because the key can be absent (the `20detik.py` variant writes
records without it, and `dict.get` then yields `None`).  `title`,
`duration` and `posted_to` carry the remaining payload of the details dict
appended by `main` (main.py 570-572). -/
structure PostedVideo where
  source_url : String
  hash : Option String
  title : String
  duration : Int
  posted_to : List UploadResult
deriving DecidableEq, Repr

/-- `VideoManager.is_video_posted` (main.py 83-85):
`any(video.get('source_url') == video_url or video.get('hash') == video_hash
for video in self.posted_videos)`.  A missing `hash` key reads as `None`,
which never equals a string, hence the `some` on the right-hand sides. -/
def is_video_posted (posted_videos : List PostedVideo) (video_url : String)
    (video_hash : String) : Bool :=
  posted_videos.any fun video =>
    video.source_url == video_url || video.hash == some video_hash

/-- `VideoManager.add_posted_video` (main.py 87-91): append the details dict
unless `is_video_posted(details['source_url'], details.get('hash', ''))`
already holds.  (The write to durable storage is out of scope here.) -/
def add_posted_video (posted_videos : List PostedVideo)
    (video_details : PostedVideo) : List PostedVideo :=
  if is_video_posted posted_videos video_details.source_url
      (video_details.hash.getD "") then posted_videos
  else posted_videos ++ [video_details]

/-- Modelled from the spec words of the `contains` contract, for comparison
with `is_video_posted`: true iff either key matches any stored record, the
hash check being performed only when a hash is supplied (`none` = no hash). -/
def contains_spec (posted_videos : List PostedVideo) (video_url : String)
    (video_hash : Option String) : Bool :=
  posted_videos.any fun video =>
    video.source_url == video_url ||
      (match video_hash with
       | some h => video.hash == some h
       | none => false)

/-- The predicate under which a stored row blocks a re-append of
`video_details` in `add_posted_video`: same matcher as `is_video_posted`
applied with the keys of `video_details`. -/
def matches_keys (video_details : PostedVideo) (video : PostedVideo) : Bool :=
  video.source_url == video_details.source_url ||
    video.hash == some (video_details.hash.getD "")

/-! ## Format decision (main.py 551: `is_reel = details['duration'] <= 60`) -/

inductive VideoFormat where
  | Reel
  | Standard
deriving DecidableEq, Repr

/-- main.py 551: `is_reel = details['duration'] <= 60`. -/
def is_reel (duration : Int) : Bool := duration ≤ 60

/-- The Reel-versus-regular branch taken at main.py 551-560, as the
`decide(duration_seconds)` function of the spec. -/
def decideFormat (duration : Int) : VideoFormat :=
  if is_reel duration then VideoFormat.Reel else VideoFormat.Standard

/-! ## Reel publish protocol (`FacebookUploader._upload_reel`, main.py 257-314) -/

/-- Protocol phases the Reel upload enters.  `statusPoll` is the
processing-status read the spec describes; it is listed so the trace can
state whether the code ever performs one. -/
inductive ReelPhase where
  | init
  | transfer
  | publish
  | statusPoll
deriving DecidableEq, Repr

/-- Environment of one `_upload_reel` run: what the external world would
answer at each call site.  `initOk`/`uploadOk`/`publishOk` model
`make_api_call` returning a response (it returns `None` on a local
rate-limit refusal or a transport error); the `StatusOk` fields model
`raise_for_status` passing.  `processingStatus` is the remote processing
status over time that a status poll would observe; the embedding keeps it
so claims about polling can be stated against it. -/
structure ReelEnv where
  initOk : Bool
  initStatusOk : Bool
  initVideoId : Option String
  uploadOk : Bool
  uploadStatusOk : Bool
  publishOk : Bool
  publishStatusOk : Bool
  processingStatus : Nat → String

/-- `FacebookUploader._upload_reel` (main.py 257-314): start phase, byte
transfer, finish phase; any failure is caught and yields `none`.  The
second component is the sequence of protocol phases entered. -/
def upload_reel (env : ReelEnv) : Option String × List ReelPhase :=
  if env.initOk && env.initStatusOk then
    match env.initVideoId with
    | none => (none, [ReelPhase.init])
    | some video_id =>
      if env.uploadOk && env.uploadStatusOk then
        if env.publishOk && env.publishStatusOk then
          (some video_id, [ReelPhase.init, ReelPhase.transfer, ReelPhase.publish])
        else (none, [ReelPhase.init, ReelPhase.transfer, ReelPhase.publish])
      else (none, [ReelPhase.init, ReelPhase.transfer])
  else (none, [ReelPhase.init])

/-- A run in which every phase up to and including publish succeeds but the
remote processing status is `"processing"` at every poll instant — the
spec's all-processing sequence exceeding the polling timeout. -/
def reelEnvAllProcessing : ReelEnv :=
  ⟨true, true, some "v1", true, true, true, true, fun _ => "processing"⟩

/-- A second fully successful run, used to instantiate the amended claim. -/
def reelEnvReady : ReelEnv :=
  ⟨true, true, some "v2", true, true, true, true, fun _ => "ready"⟩

/-! ## Destination-account configuration (`FacebookPageManager.load_pages`,
main.py 34-54, and the startup block of `main`, main.py 493-503) -/

/-- One entry of `facebook_pages.json`; `Option` fields model possibly
missing keys. -/
structure PageCfg where
  page_id : Option String
  access_token : Option String
  page_name : Option String
deriving DecidableEq, Repr

/-- The configuration file as found on disk, after JSON parsing:
absent, unparseable, parseable but not a list, or a list of entries. -/
inductive ConfigInput where
  | absent
  | unparseable
  | notList
  | list (pages : List PageCfg)
deriving DecidableEq, Repr

/-- `FacebookPageManager.load_pages` (main.py 34-54): missing file raises
`FileNotFoundError`; parse errors, a non-list document, and a missing
required field (`page_id`, `access_token`, `page_name`) raise inside the
`try` and are re-raised wrapped; a well-formed list is returned. -/
def load_pages : ConfigInput → Except String (List PageCfg)
  | ConfigInput.absent =>
      Except.error "Facebook pages config file not found: facebook_pages.json"
  | ConfigInput.unparseable =>
      Except.error "Error loading Facebook pages config: parse error"
  | ConfigInput.notList =>
      Except.error
        "Error loading Facebook pages config: Invalid Facebook pages config format - expected list"
  | ConfigInput.list pages =>
      if pages.all fun page =>
          page.page_id.isSome && page.access_token.isSome && page.page_name.isSome
      then Except.ok pages
      else Except.error
        "Error loading Facebook pages config: Missing required field in page config"

/-- Outcome of the startup block of `main`: the process exit status and
whether the pipeline loop was entered. -/
structure StartupOutcome where
  exitCode : Nat
  pipelineStarted : Bool
deriving DecidableEq, Repr

/-- The startup block of `main` (main.py 493-503): a failure of
`load_pages`, or an empty page list, is caught by the inner handler which
prints the error and executes a plain `return` — `main` then returns
normally and the interpreter exits with status 0 (the outer
`sys.exit(1)` handler is not reached).  On a non-empty well-formed list
the pipeline loop is entered; its graceful `KeyboardInterrupt` exit also
leaves `main` by a normal return, status 0. -/
def main_startup (cfg : ConfigInput) : StartupOutcome :=
  match load_pages cfg with
  | Except.error _ => ⟨0, false⟩
  | Except.ok pages => if pages.isEmpty then ⟨0, false⟩ else ⟨0, true⟩

/-! ## String primitives

Python string operations used by the scraper, implemented over the
character list of a `String` by structural recursion so that every
theorem can be evaluated on concrete inputs. -/

/-- Python `s.startswith(pfx)`. -/
def strHasPfx (pfx s : String) : Bool := pfx.data.isPrefixOf s.data

/-- Leftmost non-overlapping split, the scan shared by Python's
`str.split(sep)` and `str.replace`.  The fuel argument (always called
with `length + 1`) only bounds the recursion; each step consumes at least
one character of the haystack. -/
def splitOnAux (sep : List Char) : Nat → List Char → List Char → List (List Char)
  | 0, acc, cs => [acc.reverse ++ cs]
  | _ + 1, acc, [] => [acc.reverse]
  | n + 1, acc, c :: rest =>
    if sep.isPrefixOf (c :: rest) then
      acc.reverse :: splitOnAux sep n [] ((c :: rest).drop sep.length)
    else splitOnAux sep n (c :: acc) rest

/-- Python `s.split(sep)` for a non-empty separator. -/
def strSplitOn (s sep : String) : List String :=
  (splitOnAux sep.data (s.data.length + 1) [] s.data).map String.mk

/-- Python `sep.join(pieces)`. -/
def strJoinWith (sep : String) : List String → String
  | [] => ""
  | [x] => x
  | x :: y :: rest => x ++ sep ++ strJoinWith sep (y :: rest)

/-- Python `s.replace(needle, repl)` for a non-empty needle: split on the
needle, rejoin with the replacement — the same leftmost non-overlapping
scan Python performs. -/
def strReplace (s needle repl : String) : String :=
  strJoinWith repl (strSplitOn s needle)

/-- Python `needle in haystack` (substring containment): splitting on the
needle yields more than one piece iff the needle occurs. -/
def substr_in (needle haystack : String) : Bool :=
  (strSplitOn haystack needle).length > 1

/-- Python `c in s` for a single character. -/
def strContainsChar (s : String) (c : Char) : Bool := s.data.contains c

/-- Strip leading and trailing whitespace, as Python `str.strip()`. -/
def trimChars (cs : List Char) : List Char :=
  ((cs.dropWhile Char.isWhitespace).reverse.dropWhile Char.isWhitespace).reverse

/-- A non-empty all-digit character run read as a base-10 natural. -/
def digitsToNat? (cs : List Char) : Option Nat :=
  if cs.isEmpty then none
  else if cs.all Char.isDigit then
    some (cs.foldl (fun n c => n * 10 + (c.toNat - 48)) 0)
  else none

/-- Python `int(s)` on the inputs this program feeds it: surrounding
whitespace, an optional sign, then decimal digits; `none` models `int`
raising `ValueError`.  (Digit-grouping underscores are not modelled.) -/
def pyInt? (s : String) : Option Int :=
  match trimChars s.data with
  | '-' :: rest => (digitsToNat? rest).map fun n => -(n : Int)
  | '+' :: rest => (digitsToNat? rest).map fun n => (n : Int)
  | t => (digitsToNat? t).map fun n => (n : Int)

/-! ## Media-locator extraction (`DetikScraper._extract_video_url`,
main.py 418-445) -/

/-- The parsed `application/ld+json` block: its `@type` and optional
`contentUrl`. -/
structure LdJson where
  atType : String
  contentUrl : Option String
deriving DecidableEq, Repr

/-- What the layered extraction strategies of `_extract_video_url` would
each find on a page.  The regular-expression machinery itself is
abstracted: each field holds the first capture of the corresponding
pattern, `none` when the pattern does not match (for `ldJson`, also when
the script block is absent or fails to parse). -/
structure PageHtml where
  ldJson : Option LdJson
  m3u8Match : Option String
  metaMp4Match : Option String
  srcMp4Match : Option String
deriving DecidableEq, Repr

/-- main.py 437-439: prepend `https:` to a protocol-relative locator. -/
def normalize_url (url : String) : String :=
  if strHasPfx "//" url then "https:" ++ url else url

/-- The `patterns` loop of `_extract_video_url` (main.py 429-440): first
matching pattern wins, and its capture is normalized. -/
def pattern_urls (p : PageHtml) : Option String :=
  match p.m3u8Match with
  | some url => some (normalize_url url)
  | none =>
    match p.metaMp4Match with
    | some url => some (normalize_url url)
    | none =>
      match p.srcMp4Match with
      | some url => some (normalize_url url)
      | none => none

/-- `DetikScraper._extract_video_url` (main.py 418-445): if the JSON-LD
block parses and has `@type == "VideoObject"`, its `contentUrl` is
returned as-is (even when `None`, and with no normalization); otherwise
the pattern loop runs. -/
def extract_video_url (p : PageHtml) : Option String :=
  match p.ldJson with
  | some ld =>
      if ld.atType == "VideoObject" then ld.contentUrl else pattern_urls p
  | none => pattern_urls p

/-- A page whose structured video object carries a protocol-relative
locator, and no fallback pattern matches. -/
def pageLdProtocolRelative : PageHtml :=
  ⟨some ⟨"VideoObject", some "//cdn.example.com/v.mp4"⟩, none, none, none⟩

/-! ## Duration parsing (`DetikScraper.get_video_details`, main.py 394-401) -/

/-- The duration block of `get_video_details` (main.py 394-401).
`none` input: the duration element is absent, `duration` keeps its initial
`0`.  A text containing `detik` goes through
`int(dur_text.replace(' detik', ''))`; a text containing `:` is split and
both parts go through `int`; any `int` failure raises `ValueError`, which
the result `none` models — the surrounding `try` of `get_video_details`
catches it and the whole candidate yields no details.  A text in neither
form leaves the duration at `0`. -/
def parse_duration : Option String → Option Int
  | none => some 0
  | some dur_text =>
    if substr_in "detik" dur_text then pyInt? (strReplace dur_text " detik" "")
    else if strContainsChar dur_text ':' then
      match strSplitOn dur_text ":" with
      | p0 :: p1 :: _ =>
        match pyInt? p0, pyInt? p1 with
        | some a, some b => some (a * 60 + b)
        | _, _ => none
      | _ => none
    else some 0

/-- The metadata dict returned by `get_video_details` (main.py 372-416),
restricted to the fields the claims touch. -/
structure Details where
  title : String
  description : String
  duration : Int
  keywords : String
  source_url : String
deriving DecidableEq, Repr

/-- `DetikScraper.get_video_details` (main.py 372-416), abstracted to the
two steps that can end the candidate: a `ValueError` escaping the duration
block (caught by the outer handler, which returns `None`), and
`_extract_video_url` finding no locator (explicit `return None`). -/
def get_video_details (dur_text : Option String)
    (extracted_url : Option String)
    (title description keywords : String) : Option Details :=
  match parse_duration dur_text with
  | none => none
  | some duration =>
    match extracted_url with
    | none => none
    | some source_url => some ⟨title, description, duration, keywords, source_url⟩

/-! ## Per-page upload loop (`FacebookUploader.upload_to_all_pages`,
main.py 204-255) -/

/-- A validated configuration entry as the uploader consumes it (after
`load_pages` has checked all three keys exist). -/
structure FbPage where
  page_id : String
  access_token : String
  page_name : String
deriving DecidableEq, Repr

/-- What the external world does for one page's attempt inside the loop
body of `upload_to_all_pages`: `raised` models an exception escaping to
the per-page `except` handler; `tokenValid` the result of
`validate_token()`; `postId` the value returned by `_upload_reel` or
`_upload_regular_video` (both catch their own errors and return `None`
on failure). -/
structure PageAttempt where
  raised : Option String
  tokenValid : Bool
  postId : Option String
deriving DecidableEq, Repr

/-- One iteration of the loop body of `upload_to_all_pages` (main.py
209-253): the single results entry appended for this page.  Every branch
appends exactly one entry and `continue`s. -/
def page_result (page : FbPage) (a : PageAttempt) : UploadResult :=
  match a.raised with
  | some e => ⟨page.page_name, "error", none, none, some e⟩
  | none =>
    if a.tokenValid then
      match a.postId with
      | some post_id =>
          ⟨page.page_name, "success", some post_id,
            some ("https://facebook.com/" ++ post_id), none⟩
      | none => ⟨page.page_name, "failed", none, none,
          some "Upload returned no post ID"⟩
    else ⟨page.page_name, "failed", none, none, some "Invalid access token"⟩

/-- `FacebookUploader.upload_to_all_pages` (main.py 204-255): iterate the
configured pages in order, each paired here with its attempt outcome, and
collect one results entry per page.  (The inter-page delay and the
re-load of the page file are outside the results computation.) -/
def upload_to_all_pages (pages : List (FbPage × PageAttempt)) : List UploadResult :=
  pages.map fun pa => page_result pa.1 pa.2

/-- Default entry used with `List.getD` when indexing the results list. -/
def emptyResult : UploadResult := ⟨"", "", none, none, none⟩

/-- Default entry used with `List.getD` when indexing the page list. -/
def defaultEntry : FbPage × PageAttempt := (⟨"", "", ""⟩, ⟨none, false, none⟩)

/-! ## Cycle controller (the per-cycle candidate loop of `main`,
main.py 518-593) -/

/-- main.py 568: `sum(1 for r in upload_results if r['status'] == 'success')`. -/
def success_count (upload_results : List UploadResult) : Nat :=
  upload_results.countP fun r => r.status == "success"

/-- What the external world does for one discovered link inside the
per-candidate body of `main`'s cycle loop: the details returned by
`get_video_details` (`none` = failed, skip), the path returned by
`download_video` (`none` = failed, skip), the MD5 digest computed by
`get_file_hash`, the path returned by `convert_to_reel_format`
(`none` = conversion failed, skip; consulted only on the Reel branch),
the results list returned by `upload_to_all_pages`, and `raised` for an
unexpected exception escaping to the per-candidate `except` handler
(which skips the candidate with ledger and counter unchanged). -/
structure LinkEnv where
  details : Option Details
  downloadPath : Option String
  fileHash : String
  convertedPath : Option String
  uploadResults : List UploadResult
  raised : Bool
deriving DecidableEq, Repr

/-- The `source_url` of the candidate's details dict (the extracted media
locator, which is what both ledger pre-checks query). -/
def linkUrl (e : LinkEnv) : String :=
  match e.details with
  | some d => d.source_url
  | none => ""

/-- The record appended to the ledger for a successfully published
candidate: the details dict extended with `posted_to` and `hash`
(main.py 570-571). -/
def linkRecord (e : LinkEnv) : PostedVideo :=
  match e.details with
  | some d => ⟨d.source_url, some e.fileHash, d.title, d.duration, e.uploadResults⟩
  | none => ⟨"", some e.fileHash, "", 0, e.uploadResults⟩

/-- The per-candidate body of the cycle loop (main.py 524-593), acting on
the ledger and the `new_videos` counter: details fetch, URL pre-check
with the still-empty hash, download, hash re-check, format decision with
optional conversion, upload, and — when at least one page succeeded —
ledger append and counter increment.  All failure branches `continue`
with the state unchanged; file cleanup is out of scope. -/
def stepCandidate (ledger : List PostedVideo) (new_videos : Nat)
    (e : LinkEnv) : List PostedVideo × Nat :=
  if e.raised then (ledger, new_videos)
  else
    match e.details with
    | none => (ledger, new_videos)
    | some d =>
      if is_video_posted ledger d.source_url "" then (ledger, new_videos)
      else
        match e.downloadPath with
        | none => (ledger, new_videos)
        | some _ =>
          if is_video_posted ledger d.source_url e.fileHash then
            (ledger, new_videos)
          else if d.duration ≤ 60 ∧ e.convertedPath = none then
            (ledger, new_videos)
          else if 0 < success_count e.uploadResults then
            (add_posted_video ledger (linkRecord e), new_videos + 1)
          else (ledger, new_videos)

/-- The candidate loop of one cycle (main.py 519-593): before each
candidate, `if new_videos >= MAX_UPLOADS_PER_CYCLE: break`; otherwise
process the candidate and move on. -/
def runCycleLoop (cap : Nat) : List LinkEnv → List PostedVideo × Nat →
    List PostedVideo × Nat
  | [], s => s
  | e :: rest, s =>
    if cap ≤ s.2 then s
    else runCycleLoop cap rest (stepCandidate s.1 s.2 e)

/-- `MAX_UPLOADS_PER_CYCLE` (main.py 18). -/
def MAX_UPLOADS_PER_CYCLE : Nat := 3

/-- A candidate that the cycle starting from ledger `L` would publish:
details extracted, not already covered by `L` under either pre-check,
downloaded, converted when on the Reel branch, no stray exception, and at
least one page upload succeeded. -/
def successfulEnv (L : List PostedVideo) (e : LinkEnv) : Prop :=
  e.raised = false ∧
  e.details.isSome = true ∧
  is_video_posted L (linkUrl e) "" = false ∧
  e.downloadPath.isSome = true ∧
  is_video_posted L (linkUrl e) e.fileHash = false ∧
  ((match e.details with | some d => d.duration | none => 0) ≤ 60 →
    e.convertedPath.isSome = true) ∧
  0 < success_count e.uploadResults

instance (L : List PostedVideo) (e : LinkEnv) : Decidable (successfulEnv L e) := by
  unfold successfulEnv
  infer_instance

/-- Distinct dedup keys between two candidates: different extracted media
locators and different content digests. -/
def distinctKeys (a b : LinkEnv) : Prop :=
  linkUrl a ≠ linkUrl b ∧ a.fileHash ≠ b.fileHash

instance (a b : LinkEnv) : Decidable (distinctKeys a b) := by
  unfold distinctKeys
  infer_instance

/-! ## Concrete instances used by the witnesses -/

/-- Two concrete configured pages: the first with an invalid credential,
the second valid and yielding post id `777`. -/
def demoPages : List (FbPage × PageAttempt) :=
  [(⟨"1", "tokA", "Page A"⟩, ⟨none, false, none⟩),
   (⟨"2", "tokB", "Page B"⟩, ⟨none, true, some "777"⟩)]

/-- A fully publishable candidate with media locator `u` and digest `h`:
details extracted, download and conversion succeed, one page upload
succeeds. -/
def mkLinkEnv (u h : String) : LinkEnv :=
  ⟨some ⟨"t", "d", 30, "k", u⟩, some "f.mp4", h, some "reel_f.mp4",
    [⟨"Page A", "success", some "9", some "https://facebook.com/9", none⟩],
    false⟩

/-- Five publishable candidates with pairwise-distinct keys. -/
def cycleEnvs : List LinkEnv :=
  [mkLinkEnv "u1" "h1", mkLinkEnv "u2" "h2", mkLinkEnv "u3" "h3",
   mkLinkEnv "u4" "h4", mkLinkEnv "u5" "h5"]

/-! ## Theorems -/

/-- Claim C2 (amended): `is_video_posted` returns true iff some stored
record's `source_url` equals the queried url, or some stored record has a
`hash` key whose value equals the queried hash string.  The hash comparison
is always performed — the code has no optional-hash mode; callers encode
"no hash" as the empty string, which still matches a stored empty hash. -/
theorem is_video_posted_iff (posted_videos : List PostedVideo)
    (video_url video_hash : String) :
    is_video_posted posted_videos video_url video_hash = true ↔
      ∃ video ∈ posted_videos,
        video.source_url = video_url ∨ video.hash = some video_hash := by
  simp [is_video_posted, List.any_eq_true]

/-- Claim C2, counterexample to the claim as stated: with the ledger holding
one record whose stored hash is the empty string, the query
`("b", "")` — url `"b"` matching nothing, hash not supplied (encoded `""`)
— is reported as posted by the code, while the spec's contains (hash check
skipped when no hash is supplied) says not posted. -/
theorem is_video_posted_empty_hash_counterexample :
    is_video_posted [⟨"a", some "", "t", 10, []⟩] "b" "" = true ∧
      contains_spec [⟨"a", some "", "t", 10, []⟩] "b" none = false := by
  decide

/-- Claim C3: appending the same record twice leaves the ledger with exactly
one entry matching its keys, and the second append leaves the state
unchanged.  The idempotence conjunct needs no freshness assumption; the
exactly-one count assumes the record was not already covered by the
ledger, which is how `main` reaches `add_posted_video` at all. -/
theorem add_posted_video_idempotent (posted_videos : List PostedVideo)
    (video_details : PostedVideo)
    (hfresh : is_video_posted posted_videos video_details.source_url
      (video_details.hash.getD "") = false) :
    add_posted_video (add_posted_video posted_videos video_details)
        video_details = add_posted_video posted_videos video_details ∧
      (add_posted_video posted_videos video_details).countP
        (matches_keys video_details) = 1 := by
  have happ : add_posted_video posted_videos video_details
      = posted_videos ++ [video_details] := by
    simp [add_posted_video, hfresh]
  have hself : is_video_posted (posted_videos ++ [video_details])
      video_details.source_url (video_details.hash.getD "") = true := by
    simp [is_video_posted, List.any_append]
  constructor
  · rw [happ, add_posted_video, hself]
    simp
  · rw [happ, List.countP_append]
    have hzero : posted_videos.countP (matches_keys video_details) = 0 := by
      rw [List.countP_eq_zero]
      intro v hv hm
      have : is_video_posted posted_videos video_details.source_url
          (video_details.hash.getD "") = true := by
        simp only [is_video_posted, List.any_eq_true]
        exact ⟨v, hv, hm⟩
      rw [this] at hfresh
      exact absurd hfresh (by simp)
    rw [hzero]
    simp [matches_keys]

/-- Claim C3 witness at a concrete ledger and record. -/
theorem add_posted_video_idempotent_witness :
    add_posted_video (add_posted_video [⟨"u0", some "h0", "t0", 5, []⟩]
        ⟨"u1", some "h1", "t1", 7, []⟩) ⟨"u1", some "h1", "t1", 7, []⟩
      = add_posted_video [⟨"u0", some "h0", "t0", 5, []⟩]
        ⟨"u1", some "h1", "t1", 7, []⟩ ∧
      (add_posted_video [⟨"u0", some "h0", "t0", 5, []⟩]
        ⟨"u1", some "h1", "t1", 7, []⟩).countP
        (matches_keys ⟨"u1", some "h1", "t1", 7, []⟩) = 1 :=
  add_posted_video_idempotent [⟨"u0", some "h0", "t0", 5, []⟩]
    ⟨"u1", some "h1", "t1", 7, []⟩ (by decide)

/-- Claim C6: the Reel decision is an inclusive 60-second threshold on the
duration: `Reel` exactly when `duration ≤ 60`, and in particular at 60,
61 and 0. -/
theorem decideFormat_threshold :
    (∀ duration : Int,
        decideFormat duration = VideoFormat.Reel ↔ duration ≤ 60) ∧
      decideFormat 60 = VideoFormat.Reel ∧
      decideFormat 61 = VideoFormat.Standard ∧
      decideFormat 0 = VideoFormat.Reel := by
  refine ⟨?_, by decide, by decide, by decide⟩
  intro duration
  by_cases h : duration ≤ 60 <;> simp [decideFormat, is_reel, h]

/-- Claim C1 (amended): the Reel path has no polling phase.  Whenever the
start, transfer and finish phases all succeed, `_upload_reel` returns the
video id immediately after the finish call; its phase trace is exactly
init-transfer-publish and contains no processing-status poll, whatever the
remote processing status would have reported. -/
theorem upload_reel_no_polling (env : ReelEnv) (video_id : String)
    (h1 : env.initOk = true) (h2 : env.initStatusOk = true)
    (h3 : env.initVideoId = some video_id)
    (h4 : env.uploadOk = true) (h5 : env.uploadStatusOk = true)
    (h6 : env.publishOk = true) (h7 : env.publishStatusOk = true) :
    upload_reel env =
      (some video_id, [ReelPhase.init, ReelPhase.transfer, ReelPhase.publish]) ∧
      (upload_reel env).2.count ReelPhase.statusPoll = 0 := by
  have hres : upload_reel env =
      (some video_id, [ReelPhase.init, ReelPhase.transfer, ReelPhase.publish]) := by
    simp [upload_reel, h1, h2, h3, h4, h5, h6, h7]
  exact ⟨hres, by rw [hres]; rfl⟩

/-- Claim C1, counterexample to the claim as stated: with the remote
processing status reading `"processing"` at every instant (never a
terminal status), the claim requires the attempt to end in
`Failed(ProcessingTimeout)` after the 300-time-unit timeout; the code
instead succeeds immediately after the finish phase, and its trace shows
zero processing-status polls. -/
theorem upload_reel_all_processing_counterexample :
    upload_reel reelEnvAllProcessing =
      (some "v1", [ReelPhase.init, ReelPhase.transfer, ReelPhase.publish]) ∧
      (upload_reel reelEnvAllProcessing).2.count ReelPhase.statusPoll = 0 := by
  decide

/-- Claim C1 witness: the amended theorem applied to a concrete run. -/
theorem upload_reel_no_polling_witness :
    upload_reel reelEnvReady =
      (some "v2", [ReelPhase.init, ReelPhase.transfer, ReelPhase.publish]) ∧
      (upload_reel reelEnvReady).2.count ReelPhase.statusPoll = 0 :=
  upload_reel_no_polling reelEnvReady "v2" rfl rfl rfl rfl rfl rfl rfl

/-- Claim C5 (amended): an absent file, a non-list document, or an entry
with a missing required field makes `load_pages` fail, and the pipeline
loop is then never entered — but the process exits with status 0, because
`main` catches the error, prints it and returns normally.  The pipeline
starts exactly on a well-formed non-empty list. -/
theorem main_startup_fail_fast (cfg : ConfigInput) (e : String)
    (pages : List PageCfg) :
    (load_pages cfg = Except.error e →
      main_startup cfg = ⟨0, false⟩) ∧
    (load_pages cfg = Except.ok pages → pages = [] →
      main_startup cfg = ⟨0, false⟩) ∧
    (load_pages cfg = Except.ok pages → pages ≠ [] →
      main_startup cfg = ⟨0, true⟩) := by
  refine ⟨fun herr => ?_, fun hok hemp => ?_, fun hok hne => ?_⟩
  · simp [main_startup, herr]
  · simp [main_startup, hok, hemp]
  · simp [main_startup, hok, List.isEmpty_iff, hne]

/-- Claim C5, counterexample to the claim as stated: with the config file
absent, the pipeline does not start, but the exit status is 0 where the
claim requires a non-zero status. -/
theorem main_startup_absent_counterexample :
    (main_startup ConfigInput.absent).pipelineStarted = false ∧
      (main_startup ConfigInput.absent).exitCode = 0 := by
  decide

/-- Claim C5 witness: the amended theorem applied to the absent-file case
and to a concrete well-formed one-page configuration. -/
theorem main_startup_fail_fast_witness :
    main_startup ConfigInput.absent = ⟨0, false⟩ ∧
      main_startup (ConfigInput.list [⟨some "1", some "tok", some "P"⟩])
        = ⟨0, true⟩ :=
  ⟨(main_startup_fail_fast ConfigInput.absent
      "Facebook pages config file not found: facebook_pages.json" []).1 rfl,
   (main_startup_fail_fast (ConfigInput.list [⟨some "1", some "tok", some "P"⟩])
      "" [⟨some "1", some "tok", some "P"⟩]).2.2 rfl (by decide)⟩

/-- Claim C7 (amended): locators found by the fallback pattern loop are
normalized — a capture beginning `//` is returned with `https:` prepended
(so `//cdn.example.com/v.mp4` becomes `https://cdn.example.com/v.mp4`) —
but a locator taken from the JSON-LD `VideoObject` is returned verbatim,
with no normalization.  (The `20detik.py` variant never normalizes at
all: its pattern loop returns raw captures.) -/
theorem extract_video_url_normalization (p q : PageHtml) (ld : LdJson)
    (url : String) :
    (strHasPfx "//" url = true → normalize_url url = "https:" ++ url) ∧
    (p.ldJson = some ld → ld.atType = "VideoObject" →
      extract_video_url p = ld.contentUrl) ∧
    (q.ldJson = none → q.m3u8Match = some url →
      extract_video_url q = some (normalize_url url)) ∧
    normalize_url "//cdn.example.com/v.mp4" = "https://cdn.example.com/v.mp4" := by
  refine ⟨fun hpfx => ?_, fun hld hty => ?_, fun hnold hm => ?_, by decide⟩
  · simp [normalize_url, hpfx]
  · simp [extract_video_url, hld, hty]
  · simp [extract_video_url, pattern_urls, hnold, hm]

/-- Claim C7, counterexample to the claim as stated: a page whose
structured JSON-LD video object carries the protocol-relative locator
`//cdn.example.com/v.mp4` — the extractor returns it unnormalized, not as
an absolute https URL. -/
theorem extract_video_url_ld_counterexample :
    extract_video_url pageLdProtocolRelative = some "//cdn.example.com/v.mp4" ∧
      strHasPfx "https:" "//cdn.example.com/v.mp4" = false := by
  decide

/-- Claim C7 witness: the amended theorem at a concrete JSON-LD page and a
concrete pattern-only page with a protocol-relative m3u8 capture. -/
theorem extract_video_url_normalization_witness :
    (strHasPfx "//" "//cdn.stream/x.m3u8" = true →
      normalize_url "//cdn.stream/x.m3u8" = "https:" ++ "//cdn.stream/x.m3u8") ∧
    (pageLdProtocolRelative.ldJson =
        some ⟨"VideoObject", some "//cdn.example.com/v.mp4"⟩ →
      (⟨"VideoObject", some "//cdn.example.com/v.mp4"⟩ : LdJson).atType
          = "VideoObject" →
      extract_video_url pageLdProtocolRelative =
        (⟨"VideoObject", some "//cdn.example.com/v.mp4"⟩ : LdJson).contentUrl) ∧
    ((⟨none, some "//cdn.stream/x.m3u8", none, none⟩ : PageHtml).ldJson = none →
      (⟨none, some "//cdn.stream/x.m3u8", none, none⟩ : PageHtml).m3u8Match
          = some "//cdn.stream/x.m3u8" →
      extract_video_url ⟨none, some "//cdn.stream/x.m3u8", none, none⟩ =
        some (normalize_url "//cdn.stream/x.m3u8")) ∧
    normalize_url "//cdn.example.com/v.mp4" = "https://cdn.example.com/v.mp4" :=
  extract_video_url_normalization pageLdProtocolRelative
    ⟨none, some "//cdn.stream/x.m3u8", none, none⟩
    ⟨"VideoObject", some "//cdn.example.com/v.mp4"⟩ "//cdn.stream/x.m3u8"

/-- Claim C8 (amended): duration parsing accepts the textual `N detik`
form and the `MM:SS` form; an absent duration element, or a text in
neither form, leaves the duration at 0 and extraction succeeds.  But a
text in a recognized form whose numeric part does not parse raises
`ValueError`, which aborts the whole `get_video_details` call: the
candidate yields no details instead of defaulting to 0. -/
theorem parse_duration_forms (dur_text : String)
    (extracted_url : Option String) (title description keywords : String)
    (hnod : substr_in "detik" dur_text = false)
    (hnoc : strContainsChar dur_text ':' = false) :
    parse_duration (some dur_text) = some 0 ∧
    parse_duration none = some 0 ∧
    parse_duration (some "25 detik") = some 25 ∧
    parse_duration (some "1:30") = some 90 ∧
    get_video_details (some "a detik") extracted_url
      title description keywords = none := by
  refine ⟨?_, by decide, by decide, by decide, ?_⟩
  · simp [parse_duration, hnod, hnoc]
  · have hbad : parse_duration (some "a detik") = none := by decide
    simp [get_video_details, hbad]

/-- Claim C8, counterexample to the claim as stated: the duration text
`"a detik"` is unparseable, so the claim requires extraction to succeed
with duration 0; in the code `int('a')` raises, the outer handler catches
it, and the candidate fails (no details returned) even though a media
locator was found. -/
theorem parse_duration_counterexample :
    get_video_details (some "a detik") (some "https://x/v.mp4")
        "t" "d" "k" = none ∧
      parse_duration (some "a detik") = none := by
  decide

/-- Claim C8 witness: the amended theorem at a concrete neither-form text. -/
theorem parse_duration_forms_witness :
    parse_duration (some "LIVE") = some 0 ∧
    parse_duration none = some 0 ∧
    parse_duration (some "25 detik") = some 25 ∧
    parse_duration (some "1:30") = some 90 ∧
    get_video_details (some "a detik") (some "https://x/v.mp4")
      "t" "d" "k" = none :=
  parse_duration_forms "LIVE" (some "https://x/v.mp4") "t" "d" "k"
    (by decide) (by decide)

/-- Indexing the results of `upload_to_all_pages` lands on the entry built
for the page at the same index of the configuration. -/
theorem upload_to_all_pages_getD (pages : List (FbPage × PageAttempt))
    (i : Nat) (h : i < pages.length) :
    (upload_to_all_pages pages).getD i emptyResult
      = page_result (pages.getD i defaultEntry).1 (pages.getD i defaultEntry).2 := by
  induction pages generalizing i with
  | nil => exact absurd h (by simp)
  | cons x xs ih =>
    cases i with
    | zero => rfl
    | succ n => exact ih n (Nat.lt_of_succ_lt_succ h)

/-- Every entry `page_result` can build carries the page's name, a status
among `success`, `failed`, `error`, and a `post_id` exactly on success. -/
theorem page_result_props (page : FbPage) (a : PageAttempt) :
    (page_result page a).page_name = page.page_name ∧
    ((page_result page a).status = "success" ∨
      (page_result page a).status = "failed" ∨
      (page_result page a).status = "error") ∧
    ((page_result page a).post_id.isSome = true ↔
      (page_result page a).status = "success") := by
  cases hr : a.raised with
  | some e => simp [page_result, hr]
  | none =>
    cases ht : a.tokenValid with
    | false => simp [page_result, hr, ht]
    | true =>
      cases hp : a.postId with
      | some post_id => simp [page_result, hr, ht, hp]
      | none => simp [page_result, hr, ht, hp]

/-- Claim C10: `upload_to_all_pages` yields exactly one entry per
configured page, in configuration order (the entry at index `i` is the one
built for page `i`, carrying that page's name), every entry's status is
`success`, `failed` or `error`, and an entry carries a `post_id` exactly
when its status is `success`. -/
theorem upload_to_all_pages_shape (pages : List (FbPage × PageAttempt))
    (i : Nat) (r : UploadResult) (h : i < pages.length)
    (hr : r ∈ upload_to_all_pages pages) :
    (upload_to_all_pages pages).length = pages.length ∧
    (upload_to_all_pages pages).getD i emptyResult
      = page_result (pages.getD i defaultEntry).1 (pages.getD i defaultEntry).2 ∧
    ((upload_to_all_pages pages).getD i emptyResult).page_name
      = (pages.getD i defaultEntry).1.page_name ∧
    (r.status = "success" ∨ r.status = "failed" ∨ r.status = "error") ∧
    (r.post_id.isSome = true ↔ r.status = "success") := by
  obtain ⟨pa, hpa, heq⟩ := List.mem_map.mp hr
  refine ⟨by simp [upload_to_all_pages], upload_to_all_pages_getD pages i h, ?_, ?_, ?_⟩
  · rw [upload_to_all_pages_getD pages i h]
    exact (page_result_props _ _).1
  · rw [← heq]
    exact (page_result_props pa.1 pa.2).2.1
  · rw [← heq]
    exact (page_result_props pa.1 pa.2).2.2

/-- Claim C10 witness: the shape theorem at the two concrete pages and the
concrete first results entry. -/
theorem upload_to_all_pages_shape_witness :
    (upload_to_all_pages demoPages).length = demoPages.length ∧
    (upload_to_all_pages demoPages).getD 0 emptyResult
      = page_result (demoPages.getD 0 defaultEntry).1
          (demoPages.getD 0 defaultEntry).2 ∧
    ((upload_to_all_pages demoPages).getD 0 emptyResult).page_name
      = (demoPages.getD 0 defaultEntry).1.page_name ∧
    ((⟨"Page A", "failed", none, none, some "Invalid access token"⟩ :
        UploadResult).status = "success" ∨
      (⟨"Page A", "failed", none, none, some "Invalid access token"⟩ :
        UploadResult).status = "failed" ∨
      (⟨"Page A", "failed", none, none, some "Invalid access token"⟩ :
        UploadResult).status = "error") ∧
    ((⟨"Page A", "failed", none, none, some "Invalid access token"⟩ :
        UploadResult).post_id.isSome = true ↔
      (⟨"Page A", "failed", none, none, some "Invalid access token"⟩ :
        UploadResult).status = "success") :=
  upload_to_all_pages_shape demoPages 0
    ⟨"Page A", "failed", none, none, some "Invalid access token"⟩
    (by decide) (by decide)

/-- Claim C9: the results entry for account `j` depends only on account
`j`'s own attempt — whatever happened on earlier accounts (invalid
credential included), an account whose credential check passes and whose
upload returns a post id gets a `success` entry carrying that post id,
and the loop still visits every configured page. -/
theorem upload_isolated_success (pages : List (FbPage × PageAttempt))
    (j : Nat) (post_id : String) (hj : j < pages.length)
    (hraise : (pages.getD j defaultEntry).2.raised = none)
    (htok : (pages.getD j defaultEntry).2.tokenValid = true)
    (hpid : (pages.getD j defaultEntry).2.postId = some post_id) :
    ((upload_to_all_pages pages).getD j emptyResult).status = "success" ∧
    ((upload_to_all_pages pages).getD j emptyResult).post_id = some post_id ∧
    (upload_to_all_pages pages).length = pages.length := by
  have hg := upload_to_all_pages_getD pages j hj
  rcases hx : pages.getD j defaultEntry with ⟨p, a⟩
  rw [hx] at hg hraise htok hpid
  dsimp only at hraise htok hpid
  rw [hg]
  refine ⟨?_, ?_, by simp [upload_to_all_pages]⟩ <;>
    simp [page_result, hraise, htok, hpid]

/-- Claim C9 witness: with the first account's credential invalid, the
second account still reaches a `success` entry with its post id. -/
theorem upload_isolated_success_witness :
    ((upload_to_all_pages demoPages).getD 1 emptyResult).status = "success" ∧
    ((upload_to_all_pages demoPages).getD 1 emptyResult).post_id = some "777" ∧
    (upload_to_all_pages demoPages).length = demoPages.length :=
  upload_isolated_success demoPages 1 "777" (by decide) rfl rfl rfl

/-- The appended record carries the candidate's extracted media locator. -/
theorem linkRecord_source_url (e : LinkEnv) :
    (linkRecord e).source_url = linkUrl e := by
  cases h : e.details <;> simp [linkRecord, linkUrl, h]

/-- The appended record carries the candidate's content digest. -/
theorem linkRecord_hash (e : LinkEnv) :
    (linkRecord e).hash = some e.fileHash := by
  cases h : e.details <;> simp [linkRecord, h]

/-- The ledger query distributes over ledger concatenation. -/
theorem is_video_posted_append (A B : List PostedVideo) (u h : String) :
    is_video_posted (A ++ B) u h
      = (is_video_posted A u h || is_video_posted B u h) := by
  simp [is_video_posted, List.any_append]

/-- A block of appended candidate records matches neither key of a query
whose url and digest differ from every record in the block. -/
theorem is_video_posted_map_linkRecord (ts : List LinkEnv) (u h : String)
    (hcond : ∀ t ∈ ts, linkUrl t ≠ u ∧ t.fileHash ≠ h) :
    is_video_posted (ts.map linkRecord) u h = false := by
  simp only [is_video_posted, List.any_eq_false]
  intro r hr
  obtain ⟨t, ht, rfl⟩ := List.mem_map.mp hr
  obtain ⟨h1, h2⟩ := hcond t ht
  simp [linkRecord_source_url, linkRecord_hash, h1, h2]

/-- A candidate the current ledger would publish is published: the body
appends its record and increments the counter. -/
theorem stepCandidate_success (L : List PostedVideo) (c : Nat) (e : LinkEnv)
    (hs : successfulEnv L e) :
    stepCandidate L c e = (L ++ [linkRecord e], c + 1) := by
  obtain ⟨hr, hd, hp1, hdl, hp2, hconv, hup⟩ := hs
  cases hde : e.details with
  | none => rw [hde] at hd; exact absurd hd (by simp)
  | some d =>
    have hu : linkUrl e = d.source_url := by simp [linkUrl, hde]
    simp only [hde] at hconv
    cases hdp : e.downloadPath with
    | none => rw [hdp] at hdl; exact absurd hdl (by simp)
    | some path =>
      have hcond : ¬(d.duration ≤ 60 ∧ e.convertedPath = none) := by
        rintro ⟨h60, hcn⟩
        have hcs := hconv h60
        rw [hcn] at hcs
        exact absurd hcs (by simp)
      have hadd : add_posted_video L (linkRecord e) = L ++ [linkRecord e] := by
        unfold add_posted_video
        rw [linkRecord_source_url, linkRecord_hash]
        simp only [Option.getD_some, hp2]
        simp
      rw [hu] at hp1 hp2
      simp [stepCandidate, hr, hde, hp1, hdp, hp2, hcond, hup, hadd]

/-- Publishing one candidate preserves the publishability of any later
candidate with distinct dedup keys (and a non-empty digest on the
published one, as MD5 digests are). -/
theorem successfulEnv_append (L : List PostedVideo) (e e' : LinkEnv)
    (hs : successfulEnv L e') (hd : distinctKeys e e')
    (hne : e.fileHash ≠ "") :
    successfulEnv (L ++ [linkRecord e]) e' := by
  obtain ⟨hr, hdet, hp1, hdl, hp2, hconv, hup⟩ := hs
  obtain ⟨hu, hh⟩ := hd
  refine ⟨hr, hdet, ?_, hdl, ?_, hconv, hup⟩
  · rw [is_video_posted_append, hp1]
    simp [is_video_posted, linkRecord_source_url, linkRecord_hash, hu, hne]
  · rw [is_video_posted_append, hp2]
    simp [is_video_posted, linkRecord_source_url, linkRecord_hash, hu, hh]

/-- Running the capped candidate loop over publishable candidates with
pairwise-distinct keys publishes the first `cap - c` of them (all, if
fewer) and counts them. -/
theorem runCycleLoop_spec (cap : Nat) (envs : List LinkEnv) :
    ∀ (L : List PostedVideo) (c : Nat), c ≤ cap →
    (∀ e ∈ envs, successfulEnv L e) →
    envs.Pairwise distinctKeys →
    (∀ e ∈ envs, e.fileHash ≠ "") →
    runCycleLoop cap envs (L, c)
      = (L ++ (envs.take (cap - c)).map linkRecord, min cap (c + envs.length)) := by
  induction envs with
  | nil =>
    intro L c hc _ _ _
    simp [runCycleLoop, Nat.min_eq_right hc]
  | cons e rest ih =>
    intro L c hc hall hpw hhash
    by_cases hcap : cap ≤ c
    · have hceq : c = cap := Nat.le_antisymm hc hcap
      subst hceq
      simp [runCycleLoop, Nat.sub_self, Nat.min_eq_left (Nat.le_add_right c _)]
    · push_neg at hcap
      have hstep := stepCandidate_success L c e (hall e (by simp))
      have hih := ih (L ++ [linkRecord e]) (c + 1) (by omega)
        (fun e' he' => successfulEnv_append L e e' (hall e' (by simp [he']))
          (List.rel_of_pairwise_cons hpw he') (hhash e (by simp)))
        (List.Pairwise.of_cons hpw)
        (fun e' he' => hhash e' (by simp [he']))
      have hsub : cap - c = (cap - (c + 1)) + 1 := by omega
      have hadd1 : c + 1 + rest.length = c + (rest.length + 1) := by omega
      rw [runCycleLoop]
      rw [if_neg (by simpa using Nat.not_le.mpr hcap)]
      simp only []
      rw [hstep, hih, hsub, List.take_succ_cons, List.map_cons, hadd1]
      simp [List.append_assoc]

/-- Claim C4: when a cycle meets more publishable, not-yet-posted
candidates than the per-cycle cap (with pairwise-distinct dedup keys and
non-empty digests), exactly `cap` of them — the first `cap` in discovery
order — are published and recorded; the counter stops at `cap`, and every
remaining candidate is absent from the resulting ledger under both
pre-checks, so the next cycle's discovery re-evaluates it. -/
theorem cycle_cap_exact (cap : Nat) (L0 : List PostedVideo)
    (envs : List LinkEnv) (e : LinkEnv)
    (hall : ∀ x ∈ envs, successfulEnv L0 x)
    (hpw : envs.Pairwise distinctKeys)
    (hhash : ∀ x ∈ envs, x.fileHash ≠ "")
    (hlen : cap < envs.length)
    (he : e ∈ envs.drop cap) :
    (runCycleLoop cap envs (L0, 0)).2 = cap ∧
    (runCycleLoop cap envs (L0, 0)).1 = L0 ++ (envs.take cap).map linkRecord ∧
    is_video_posted (runCycleLoop cap envs (L0, 0)).1 (linkUrl e) "" = false ∧
    is_video_posted (runCycleLoop cap envs (L0, 0)).1 (linkUrl e) e.fileHash
      = false := by
  have hspec := runCycleLoop_spec cap envs L0 0 (Nat.zero_le _) hall hpw hhash
  rw [Nat.sub_zero] at hspec
  have hmem : e ∈ envs := List.mem_of_mem_drop he
  have hmin : min cap (0 + envs.length) = cap :=
    Nat.min_eq_left (by omega)
  have hpw2 : (envs.take cap ++ envs.drop cap).Pairwise distinctKeys := by
    rw [List.take_append_drop]
    exact hpw
  have hcross := (List.pairwise_append.mp hpw2).2.2
  obtain ⟨hs1, hs2, hs3, hs4, hs5, hs6, hs7⟩ := hall e hmem
  have hcond1 : ∀ t ∈ envs.take cap, linkUrl t ≠ linkUrl e ∧ t.fileHash ≠ "" :=
    fun t ht => ⟨(hcross t ht e he).1, hhash t (List.mem_of_mem_take ht)⟩
  have hcond2 : ∀ t ∈ envs.take cap,
      linkUrl t ≠ linkUrl e ∧ t.fileHash ≠ e.fileHash :=
    fun t ht => ⟨(hcross t ht e he).1, (hcross t ht e he).2⟩
  rw [hspec]
  refine ⟨by simpa using hmin, rfl, ?_, ?_⟩
  · rw [is_video_posted_append, hs3,
      is_video_posted_map_linkRecord (envs.take cap) (linkUrl e) "" hcond1]
    rfl
  · rw [is_video_posted_append, hs5,
      is_video_posted_map_linkRecord (envs.take cap) (linkUrl e) e.fileHash hcond2]
    rfl

/-- Claim C4 witness: five publishable candidates against an empty ledger
with the cap of 3 — exactly the first three are recorded, and the fourth
stays unknown to both ledger pre-checks. -/
theorem cycle_cap_exact_witness :
    (runCycleLoop 3 cycleEnvs ([], 0)).2 = 3 ∧
    (runCycleLoop 3 cycleEnvs ([], 0)).1
      = [] ++ (cycleEnvs.take 3).map linkRecord ∧
    is_video_posted (runCycleLoop 3 cycleEnvs ([], 0)).1
      (linkUrl (mkLinkEnv "u4" "h4")) "" = false ∧
    is_video_posted (runCycleLoop 3 cycleEnvs ([], 0)).1
      (linkUrl (mkLinkEnv "u4" "h4")) (mkLinkEnv "u4" "h4").fileHash = false :=
  cycle_cap_exact 3 [] cycleEnvs (mkLinkEnv "u4" "h4")
    (by decide) (by decide) (by decide) (by decide) (by decide)
